import Mathlib

/-!
# Verification of `generate_test_png.py`

A shallow embedding of the PNG test-fixture generator: a script that
assembles a minimal 1×1 transparent RGBA PNG byte sequence and writes it
to a file. Bytes are modelled as natural numbers below 256, byte strings
as `List Nat`. The zlib compressor is an external library routine, so
`create_png_data` is parametrised by the compression function; the CRC-32
checksum (`zlib.crc32`) is embedded directly.
-/

set_option maxRecDepth 8192

namespace GenerateTestPng

/-- Big-endian 4-byte encoding of a natural number, as produced by
Python's `struct.pack` with format `>L` (which is defined exactly for
values below `2 ^ 32`; on those values this encoding agrees with it). -/
def toBE32 (n : Nat) : List Nat :=
  [n / 2 ^ 24 % 256, n / 2 ^ 16 % 256, n / 2 ^ 8 % 256, n % 256]

/-- Big-endian decoding of the first four bytes of a list
(`0` if fewer than four bytes are present). -/
def readBE32 : List Nat → Nat
  | a :: b :: c :: d :: _ => ((a * 256 + b) * 256 + c) * 256 + d
  | _ => 0

/-- One bit-step of the CRC-32 feedback loop with the reversed
polynomial `0xEDB88320`, as used by `zlib.crc32`: shift right and, when
the low bit was set, XOR in the polynomial. -/
def crc32_step (c : Nat) : Nat :=
  if c % 2 = 1 then c / 2 ^^^ 0xEDB88320 else c / 2

/-- Feed one byte into a running CRC-32 state: XOR the byte into the low
bits, then run eight bit-steps. -/
def crc32_feed (c b : Nat) : Nat := crc32_step^[8] (c ^^^ b)

/-- `zlib.crc32` over a byte list: initial state `0xFFFFFFFF`, one
`crc32_feed` per byte, final complement. -/
def crc32 (data : List Nat) : Nat :=
  data.foldl crc32_feed 0xFFFFFFFF ^^^ 0xFFFFFFFF

/-! ## `create_png_data`

Each local variable of the Python function becomes a top-level
definition; the zlib compressor is a parameter `compress`. -/

/-- `png_signature = b'\x89PNG\r\n\x1a\n'`. -/
def png_signature : List Nat := [0x89, 0x50, 0x4E, 0x47, 0x0D, 0x0A, 0x1A, 0x0A]

/-- The ASCII bytes of the tag `b'IHDR'`. -/
def ihdr_tag : List Nat := [0x49, 0x48, 0x44, 0x52]

/-- `ihdr_data = struct.pack('>LLBBBBB', 1, 1, 8, 6, 0, 0, 0)`:
width, height as big-endian u32, then five single bytes. -/
def ihdr_data : List Nat := toBE32 1 ++ toBE32 1 ++ [8, 6, 0, 0, 0]

/-- `ihdr_crc = zlib.crc32(b'IHDR' + ihdr_data) & 0xffffffff`. -/
def ihdr_crc : Nat := crc32 (ihdr_tag ++ ihdr_data) &&& 0xffffffff

/-- `ihdr_chunk = struct.pack('>L', len(ihdr_data)) + b'IHDR' + ihdr_data
+ struct.pack('>L', ihdr_crc)`. -/
def ihdr_chunk : List Nat :=
  toBE32 ihdr_data.length ++ ihdr_tag ++ ihdr_data ++ toBE32 ihdr_crc

/-- `pixel_data = b'\x00\x00\x00\x00\x00'`: one filter-type byte followed
by the four RGBA bytes of the single transparent pixel. -/
def pixel_data : List Nat := [0x00, 0x00, 0x00, 0x00, 0x00]

/-- `compressed_data = zlib.compress(pixel_data)`, for a given
compressor implementation `compress`. -/
def compressed_data (compress : List Nat → List Nat) : List Nat :=
  compress pixel_data

/-- The ASCII bytes of the tag `b'IDAT'`. -/
def idat_tag : List Nat := [0x49, 0x44, 0x41, 0x54]

/-- `idat_crc = zlib.crc32(b'IDAT' + compressed_data) & 0xffffffff`. -/
def idat_crc (compress : List Nat → List Nat) : Nat :=
  crc32 (idat_tag ++ compressed_data compress) &&& 0xffffffff

/-- `idat_chunk = struct.pack('>L', len(compressed_data)) + b'IDAT' +
compressed_data + struct.pack('>L', idat_crc)`. -/
def idat_chunk (compress : List Nat → List Nat) : List Nat :=
  toBE32 (compressed_data compress).length ++ idat_tag ++
    compressed_data compress ++ toBE32 (idat_crc compress)

/-- The ASCII bytes of the tag `b'IEND'`. -/
def iend_tag : List Nat := [0x49, 0x45, 0x4E, 0x44]

/-- `iend_crc = zlib.crc32(b'IEND') & 0xffffffff`. -/
def iend_crc : Nat := crc32 iend_tag &&& 0xffffffff

/-- `iend_chunk = struct.pack('>L', 0) + b'IEND' + struct.pack('>L', iend_crc)`. -/
def iend_chunk : List Nat := toBE32 0 ++ iend_tag ++ toBE32 iend_crc

/-- `create_png_data`: the PNG signature followed by the three chunks. -/
def create_png_data (compress : List Nat → List Nat) : List Nat :=
  png_signature ++ ihdr_chunk ++ idat_chunk compress ++ iend_chunk

/-! ## Chunk structure

A view of a serialized chunk as its four fields, used to state the
chunk-framing invariants. -/

/-- The four fields of a PNG chunk as they appear on the wire. -/
structure Chunk where
  lenField : List Nat
  tag : List Nat
  payload : List Nat
  crcField : List Nat

/-- Wire form of a chunk: length field, tag, payload, CRC field. -/
def Chunk.serialize (c : Chunk) : List Nat :=
  c.lenField ++ c.tag ++ c.payload ++ c.crcField

/-- The chunk-framing invariant: the 4-byte length field decodes to the
exact payload byte count, and the 4-byte CRC field decodes to the CRC-32
of the tag concatenated with the payload. -/
def Chunk.wellFormed (c : Chunk) : Prop :=
  readBE32 c.lenField = c.payload.length ∧
  readBE32 c.crcField = crc32 (c.tag ++ c.payload)

/-- The IHDR chunk of the output, viewed by fields. -/
def ihdrChunk : Chunk :=
  ⟨toBE32 ihdr_data.length, ihdr_tag, ihdr_data, toBE32 ihdr_crc⟩

/-- The IDAT chunk of the output, viewed by fields. -/
def idatChunk (compress : List Nat → List Nat) : Chunk :=
  ⟨toBE32 (compressed_data compress).length, idat_tag,
    compressed_data compress, toBE32 (idat_crc compress)⟩

/-- The IEND chunk of the output, viewed by fields (empty payload). -/
def iendChunk : Chunk := ⟨toBE32 0, iend_tag, [], toBE32 iend_crc⟩

/-! ## IHDR payload decoding

Decoder for the fixed 13-byte IHDR payload layout: width and height as
big-endian u32, then bit depth, color type, compression method, filter
method, interlace method as single bytes. -/

/-- Decoded IHDR fields. -/
structure IhdrFields where
  width : Nat
  height : Nat
  bitDepth : Nat
  colorType : Nat
  compressionMethod : Nat
  filterMethod : Nat
  interlaceMethod : Nat
deriving DecidableEq

/-- Decode a 13-byte IHDR payload under the big-endian layout
(u32 width, u32 height, five u8 fields); `none` unless the payload is
exactly 13 bytes. -/
def decodeIhdrPayload : List Nat → Option IhdrFields
  | [w3, w2, w1, w0, h3, h2, h1, h0, bd, ct, cm, fm, im] =>
      some ⟨readBE32 [w3, w2, w1, w0], readBE32 [h3, h2, h1, h0], bd, ct, cm, fm, im⟩
  | _ => none

/-! ## `main`

`main` reads the output path from `sys.argv`, builds the PNG bytes,
writes them to the file and prints a confirmation line. File I/O is
Python-stdlib behaviour, so the filesystem and the write primitive are
modelled explicitly: a filesystem maps paths to the contents of existing
files, and an abstract write primitive `w` reports either success
(`none`) or an I/O error message (`some e`). -/

/-- A filesystem: each path maps to the byte contents of the file there,
when one exists. -/
def FS : Type := String → Option (List Nat)

/-- The filesystem after the file at `p` is created or overwritten
with contents `data`. -/
def FS.update (fs : FS) (p : String) (data : List Nat) : FS :=
  fun q => if q = p then some data else fs q

/-- Modelled from the spec: the `with open(output_file, 'wb') as f:
f.write(png_data)` block is Python-stdlib file I/O, not code of this
repository. Per the spec it "creates or overwrites a file at `path`
containing exactly" the produced bytes, opened in binary mode so no byte
translation occurs, "written atomically as one write call", and on
failure the filesystem error is "surfaced to the caller unmodified, not
retried or recovered". The abstract primitive `w` decides success
(`none`: the file now holds exactly `data`) or failure (`some e`: the
error `e` is raised and nothing observable changes). -/
def write_file (w : FS → String → List Nat → Option String) (fs : FS)
    (path : String) (data : List Nat) : FS × Option String :=
  match w fs path data with
  | some e => (fs, some e)
  | none => (fs.update path data, none)

/-- `output_file = sys.argv[1] if len(sys.argv) > 1 else 'example.png'`
(`argv` is the full `sys.argv`, program name included). -/
def output_file (argv : List String) : String :=
  argv.getD 1 "example.png"

/-- The confirmation line
`f"Generated {output_file} ({len(png_data)} bytes)"`. -/
def report_line (path : String) (n : Nat) : String :=
  "Generated " ++ path ++ " (" ++ toString n ++ " bytes)"

/-- `main`: resolve the output path, build the PNG bytes, write them,
print the confirmation line. The result is the final filesystem together
with either the stdout line (success) or the propagated I/O error; there
is no handler in the source, so an error is returned as raised. -/
def main (argv : List String) (compress : List Nat → List Nat)
    (w : FS → String → List Nat → Option String) (fs : FS) :
    FS × Except String String :=
  let path := output_file argv
  let png_data := create_png_data compress
  match write_file w fs path png_data with
  | (fs', some e) => (fs', Except.error e)
  | (fs', none) => (fs', Except.ok (report_line path png_data.length))

/-- Modelled from the spec: the process boundary of the Python runtime is
not code of this repository. An unhandled exception "terminates the run
with a non-zero exit status and a diagnostic message"; a normal return
from `main` exits with status 0. -/
def exit_status : Except String String → Nat
  | Except.error _ => 1
  | Except.ok _ => 0

/-! ## Helper lemmas -/

lemma readBE32_toBE32 (n : Nat) : readBE32 (toBE32 n) = n % 2 ^ 32 := by
  simp only [toBE32, readBE32]
  omega

lemma crc32_step_lt {c : Nat} (h : c < 2 ^ 32) : crc32_step c < 2 ^ 32 := by
  unfold crc32_step
  split
  · exact Nat.xor_lt_two_pow (by omega) (by norm_num)
  · omega

lemma crc32_step_iterate_lt (k : Nat) {c : Nat} (h : c < 2 ^ 32) :
    crc32_step^[k] c < 2 ^ 32 := by
  induction k generalizing c with
  | zero => simpa using h
  | succ k ih =>
      rw [Function.iterate_succ_apply]
      exact ih (crc32_step_lt h)

lemma crc32_feed_lt {c b : Nat} (hc : c < 2 ^ 32) (hb : b < 2 ^ 32) :
    crc32_feed c b < 2 ^ 32 :=
  crc32_step_iterate_lt 8 (Nat.xor_lt_two_pow hc hb)

lemma crc32_foldl_lt {data : List Nat} {c : Nat} (hc : c < 2 ^ 32)
    (h : ∀ b ∈ data, b < 2 ^ 32) : data.foldl crc32_feed c < 2 ^ 32 := by
  induction data generalizing c with
  | nil => simpa using hc
  | cons x xs ih =>
      simp only [List.foldl_cons]
      exact ih (crc32_feed_lt hc (h x (by simp))) (fun b hb => h b (by simp [hb]))

lemma crc32_lt {data : List Nat} (h : ∀ b ∈ data, b < 2 ^ 32) : crc32 data < 2 ^ 32 :=
  Nat.xor_lt_two_pow (crc32_foldl_lt (by norm_num) h) (by norm_num)

lemma and_mask32_eq {x : Nat} (h : x < 2 ^ 32) : x &&& 0xffffffff = x := by
  have hm : (0xffffffff : Nat) = 2 ^ 32 - 1 := by norm_num
  rw [hm, Nat.and_pow_two_sub_one_of_lt_two_pow h]

lemma readBE32_crc_field {l : List Nat} (h : ∀ b ∈ l, b < 2 ^ 32) :
    readBE32 (toBE32 (crc32 l &&& 0xffffffff)) = crc32 l := by
  rw [and_mask32_eq (crc32_lt h), readBE32_toBE32, Nat.mod_eq_of_lt (crc32_lt h)]

/-! ## Claim theorems -/

/-- C1: the output of `create_png_data` is the signature followed by the
serialized IHDR, IDAT and IEND chunks, and in each of the three chunks
the 4-byte big-endian length field equals the exact payload byte length
and the 4-byte big-endian CRC field equals `crc32 (tag ++ payload)`.
(Hypotheses: the compressor emits bytes and its output fits the u32
length field, as `struct.pack` requires.) -/
theorem chunk_fields_wellFormed (compress : List Nat → List Nat)
    (hbytes : ∀ b ∈ compress pixel_data, b < 256)
    (hlen : (compress pixel_data).length < 2 ^ 32) :
    create_png_data compress =
      png_signature ++ ihdrChunk.serialize ++ (idatChunk compress).serialize ++
        iendChunk.serialize ∧
    ihdrChunk.wellFormed ∧ (idatChunk compress).wellFormed ∧ iendChunk.wellFormed := by
  refine ⟨rfl, ⟨by decide, by decide⟩, ⟨?_, ?_⟩, ⟨by decide, by decide⟩⟩
  · show readBE32 (toBE32 (compressed_data compress).length) =
      (compressed_data compress).length
    rw [readBE32_toBE32]
    exact Nat.mod_eq_of_lt hlen
  · show readBE32 (toBE32 (idat_crc compress)) = crc32 (idat_tag ++ compressed_data compress)
    unfold idat_crc
    apply readBE32_crc_field
    intro b hb
    rcases List.mem_append.mp hb with h | h
    · simp only [idat_tag, List.mem_cons, List.not_mem_nil, or_false] at h
      rcases h with rfl | rfl | rfl | rfl <;> norm_num
    · exact lt_trans (hbytes b h) (by norm_num)

/-- Witness for C1 at the identity stand-in compressor. -/
theorem chunk_fields_wellFormed_witness :
    (∀ b ∈ (fun l : List Nat => l) pixel_data, b < 256) ∧
    ((fun l : List Nat => l) pixel_data).length < 2 ^ 32 ∧
    (create_png_data (fun l => l) =
      png_signature ++ ihdrChunk.serialize ++ (idatChunk (fun l => l)).serialize ++
        iendChunk.serialize ∧
    ihdrChunk.wellFormed ∧ (idatChunk (fun l => l)).wellFormed ∧ iendChunk.wellFormed) :=
  ⟨by decide, by decide, chunk_fields_wellFormed (fun l => l) (by decide) (by decide)⟩

/-- C2: the output of `create_png_data` is exactly the 8-byte PNG
signature `89 50 4E 47 0D 0A 1A 0A` followed by the IHDR, IDAT and IEND
chunks in that order and nothing else; in particular its first 8 bytes
equal that literal signature. -/
theorem output_layout (compress : List Nat → List Nat)
    (_hlen : (compress pixel_data).length < 2 ^ 32) :
    create_png_data compress =
      png_signature ++ ihdr_chunk ++ idat_chunk compress ++ iend_chunk ∧
    (create_png_data compress).take 8 =
      [0x89, 0x50, 0x4E, 0x47, 0x0D, 0x0A, 0x1A, 0x0A] :=
  ⟨rfl, rfl⟩

/-- Witness for C2 at the identity stand-in compressor. -/
theorem output_layout_witness :
    ((fun l : List Nat => l) pixel_data).length < 2 ^ 32 ∧
    (create_png_data (fun l => l) =
      png_signature ++ ihdr_chunk ++ idat_chunk (fun l => l) ++ iend_chunk ∧
    (create_png_data (fun l => l)).take 8 =
      [0x89, 0x50, 0x4E, 0x47, 0x0D, 0x0A, 0x1A, 0x0A]) :=
  ⟨by decide, output_layout (fun l => l) (by decide)⟩

/-- C3: the IHDR payload is exactly 13 bytes and decodes, under the
big-endian layout (u32 width, u32 height, five u8 fields), to width=1,
height=1, bit depth=8, color type=6, compression method=0, filter
method=0, interlace method=0. -/
theorem ihdr_payload_decodes :
    ihdr_data.length = 13 ∧
    decodeIhdrPayload ihdr_data = some ⟨1, 1, 8, 6, 0, 0, 0⟩ :=
  ⟨rfl, rfl⟩

/-- C4: the IDAT payload is the compressor applied to exactly the five
bytes `00 00 00 00 00` (one filter byte and four zero RGBA bytes), so
any decompressor that inverts the compressor recovers exactly those five
bytes from it. -/
theorem idat_payload_roundtrip (compress decompress : List Nat → List Nat)
    (h : ∀ l, decompress (compress l) = l) :
    (idatChunk compress).payload = compress pixel_data ∧
    decompress (idatChunk compress).payload = [0x00, 0x00, 0x00, 0x00, 0x00] := by
  refine ⟨rfl, ?_⟩
  show decompress (compress pixel_data) = _
  exact (h pixel_data).trans rfl

/-- Witness for C4 at the identity codec. -/
theorem idat_payload_roundtrip_witness :
    (∀ l : List Nat, (fun x : List Nat => x) ((fun x : List Nat => x) l) = l) ∧
    ((idatChunk (fun x => x)).payload = (fun x : List Nat => x) pixel_data ∧
      (fun x : List Nat => x) (idatChunk (fun x => x)).payload =
        [0x00, 0x00, 0x00, 0x00, 0x00]) :=
  ⟨fun _ => rfl, idat_payload_roundtrip (fun x => x) (fun x => x) (fun _ => rfl)⟩

/-- C5: `create_png_data` is a pure function whose output depends only on
the compression routine's answer on the fixed 5-byte input: two runs
whose compressors agree there produce byte-identical output; in
particular repeated calls with a fixed compressor are deterministic. -/
theorem create_png_data_deterministic (c₁ c₂ : List Nat → List Nat)
    (h : c₁ pixel_data = c₂ pixel_data) :
    create_png_data c₁ = create_png_data c₂ := by
  simp only [create_png_data, idat_chunk, idat_crc, compressed_data, h]

/-- Witness for C5: two syntactically different compressors that agree on
`pixel_data` yield identical output. -/
theorem create_png_data_deterministic_witness :
    (fun x : List Nat => x) pixel_data =
      (fun x : List Nat => x.take 5 ++ x.drop 5) pixel_data ∧
    create_png_data (fun x => x) =
      create_png_data (fun x => x.take 5 ++ x.drop 5) :=
  ⟨rfl, create_png_data_deterministic (fun x => x) (fun x => x.take 5 ++ x.drop 5) rfl⟩

/-- C6: when the write succeeds, the destination file holds exactly the
bytes of `create_png_data` — nothing more, nothing less — and the stdout
line is `Generated <path> (<N> bytes)` where `<N>` is the byte length of
the file actually on disk after the run. -/
theorem main_writes_and_reports (argv : List String) (compress : List Nat → List Nat)
    (w : FS → String → List Nat → Option String) (fs : FS)
    (h : w fs (output_file argv) (create_png_data compress) = none) :
    (main argv compress w fs).1 (output_file argv) = some (create_png_data compress) ∧
    (main argv compress w fs).2 = Except.ok (report_line (output_file argv)
        (((main argv compress w fs).1 (output_file argv)).getD []).length) := by
  simp [main, write_file, h, FS.update]

/-- Witness for C6 at a concrete path, compressor, filesystem and
always-succeeding write primitive. -/
theorem main_writes_and_reports_witness :
    ((fun _ _ _ => none : FS → String → List Nat → Option String)
        (fun _ => none) (output_file ["prog", "out.png"])
        (create_png_data (fun l => l)) = none) ∧
    ((main ["prog", "out.png"] (fun l => l) (fun _ _ _ => none) (fun _ => none)).1
        (output_file ["prog", "out.png"]) = some (create_png_data (fun l => l)) ∧
      (main ["prog", "out.png"] (fun l => l) (fun _ _ _ => none) (fun _ => none)).2 =
        Except.ok (report_line (output_file ["prog", "out.png"])
          (((main ["prog", "out.png"] (fun l => l) (fun _ _ _ => none)
              (fun _ => none)).1 (output_file ["prog", "out.png"])).getD []).length)) :=
  ⟨rfl, main_writes_and_reports ["prog", "out.png"] (fun l => l)
    (fun _ _ _ => none) (fun _ => none) rfl⟩

/-- C7: with no path argument (`sys.argv` holds at most the program
name), the file is written at the fixed default path `example.png`, and
the bytes written do not depend on the path argument: a run with any
other argument vector writes the same contents. -/
theorem default_path_independent (argv₁ argv₂ : List String)
    (compress : List Nat → List Nat)
    (w₁ w₂ : FS → String → List Nat → Option String) (fs₁ fs₂ : FS)
    (hdef : argv₁.length ≤ 1)
    (h₁ : w₁ fs₁ (output_file argv₁) (create_png_data compress) = none)
    (h₂ : w₂ fs₂ (output_file argv₂) (create_png_data compress) = none) :
    output_file argv₁ = "example.png" ∧
    (main argv₁ compress w₁ fs₁).1 (output_file argv₁) =
      (main argv₂ compress w₂ fs₂).1 (output_file argv₂) := by
  constructor
  · unfold output_file
    exact List.getD_eq_default _ _ hdef
  · simp [main, write_file, h₁, h₂, FS.update]

/-- Witness for C7: a run with no argument and a run with an explicit
path store identical bytes. -/
theorem default_path_independent_witness :
    (["prog"] : List String).length ≤ 1 ∧
    ((fun _ _ _ => none : FS → String → List Nat → Option String)
        (fun _ => none) (output_file ["prog"]) (create_png_data (fun l => l)) = none) ∧
    ((fun _ _ _ => none : FS → String → List Nat → Option String)
        (fun _ => none) (output_file ["prog", "out.png"])
        (create_png_data (fun l => l)) = none) ∧
    (output_file ["prog"] = "example.png" ∧
      (main ["prog"] (fun l => l) (fun _ _ _ => none) (fun _ => none)).1
          (output_file ["prog"]) =
        (main ["prog", "out.png"] (fun l => l) (fun _ _ _ => none) (fun _ => none)).1
          (output_file ["prog", "out.png"])) :=
  ⟨by decide, rfl, rfl,
    default_path_independent ["prog"] ["prog", "out.png"] (fun l => l)
      (fun _ _ _ => none) (fun _ _ _ => none) (fun _ => none) (fun _ => none)
      (by decide) rfl rfl⟩

/-- C8: an I/O failure of the write is propagated to the process
boundary unmodified — `main` has no handler — and the run terminates with
a non-zero exit status carrying the diagnostic; when the write succeeds
the run exits with status 0. -/
theorem error_propagation (argv : List String) (compress : List Nat → List Nat)
    (w : FS → String → List Nat → Option String) (fs : FS) :
    (∀ e, w fs (output_file argv) (create_png_data compress) = some e →
      (main argv compress w fs).2 = Except.error e ∧
      exit_status (main argv compress w fs).2 ≠ 0) ∧
    (w fs (output_file argv) (create_png_data compress) = none →
      exit_status (main argv compress w fs).2 = 0) := by
  constructor
  · intro e he
    simp [main, write_file, he, exit_status]
  · intro h
    simp [main, write_file, h, exit_status]

/-- Witness for C8: a failing write propagates its diagnostic and exits
non-zero; a succeeding write exits zero. -/
theorem error_propagation_witness :
    ((main ["prog", "out.png"] (fun l => l) (fun _ _ _ => some "disk full")
        (fun _ => none)).2 = Except.error "disk full" ∧
      exit_status (main ["prog", "out.png"] (fun l => l)
        (fun _ _ _ => some "disk full") (fun _ => none)).2 ≠ 0) ∧
    exit_status (main ["prog", "out.png"] (fun l => l) (fun _ _ _ => none)
      (fun _ => none)).2 = 0 :=
  ⟨(error_propagation ["prog", "out.png"] (fun l => l)
      (fun _ _ _ => some "disk full") (fun _ => none)).1 "disk full" rfl,
    (error_propagation ["prog", "out.png"] (fun l => l)
      (fun _ _ _ => none) (fun _ => none)).2 rfl⟩

/-- C9: the write is atomic with respect to failure: after any run,
either the destination file holds the full byte sequence of
`create_png_data`, or the filesystem — in particular the destination
path — is unchanged. -/
theorem write_atomicity (argv : List String) (compress : List Nat → List Nat)
    (w : FS → String → List Nat → Option String) (fs : FS) :
    (main argv compress w fs).1 (output_file argv) = some (create_png_data compress) ∨
    ∀ p, (main argv compress w fs).1 p = fs p := by
  cases hw : w fs (output_file argv) (create_png_data compress) with
  | none =>
      left
      simp [main, write_file, hw, FS.update]
  | some e =>
      right
      intro p
      simp [main, write_file, hw]

/-- C10: the output of `create_png_data` has length `57 + n` where `n`
is the compressed IDAT payload length: an 8-byte signature, a 25-byte
IHDR chunk, a `12 + n`-byte IDAT chunk, and a 12-byte IEND chunk whose
serialization is `00 00 00 00 49 45 4E 44` followed by its 4 CRC
bytes. -/
theorem total_length_eq (compress : List Nat → List Nat)
    (_hlen : (compress pixel_data).length < 2 ^ 32) :
    (create_png_data compress).length = 57 + (compressed_data compress).length ∧
    png_signature.length = 8 ∧
    ihdr_chunk.length = 25 ∧
    (idat_chunk compress).length = 12 + (compressed_data compress).length ∧
    iend_chunk.length = 12 ∧
    iend_chunk = [0x00, 0x00, 0x00, 0x00, 0x49, 0x45, 0x4E, 0x44] ++ toBE32 iend_crc := by
  have hidat : (idat_chunk compress).length = 12 + (compressed_data compress).length := by
    simp [idat_chunk, toBE32, idat_tag]
    omega
  refine ⟨?_, rfl, rfl, hidat, rfl, rfl⟩
  have h8 : png_signature.length = 8 := rfl
  have h25 : ihdr_chunk.length = 25 := rfl
  have h12 : iend_chunk.length = 12 := rfl
  simp [create_png_data, h8, h25, h12, hidat]
  omega

/-- Witness for C10 at the identity stand-in compressor. -/
theorem total_length_eq_witness :
    ((fun l : List Nat => l) pixel_data).length < 2 ^ 32 ∧
    ((create_png_data (fun l => l)).length =
        57 + (compressed_data (fun l => l)).length ∧
      png_signature.length = 8 ∧
      ihdr_chunk.length = 25 ∧
      (idat_chunk (fun l => l)).length = 12 + (compressed_data (fun l => l)).length ∧
      iend_chunk.length = 12 ∧
      iend_chunk = [0x00, 0x00, 0x00, 0x00, 0x49, 0x45, 0x4E, 0x44] ++ toBE32 iend_crc) :=
  ⟨by decide, total_length_eq (fun l => l) (by decide)⟩

end GenerateTestPng
